import Mathlib

/-!
Shallow embedding of the `postprocessing` repository fragments under
verification: `MaskMaterial` and `KawaseBlurMaterial` (from
`src/materials/MaskMaterial.js`), together with spec-modelled components
(EffectPass merging, EffectComposer scheduling, Pass disposal) whose
source is not part of the provided tree.

Materials are modelled as immutable state records; JS property setters
become state transformers `State → Value → State`.  Numeric uniform
values are rationals (`ℚ`), textures are records carrying their pixel
`type` tag, and nullable references are `Option`.  The fallible
`maskTexture` setter (it dereferences its argument unconditionally)
returns `Except`.
-/

/-- A three.js texture, reduced to the field the masking code inspects. -/
structure Texture where
  type : Nat
deriving DecidableEq, Repr

/-- three.js `UnsignedByteType` constant. -/
def UnsignedByteType : Nat := 1009

/-- `ColorChannel.RED` from the repository enums (value `0`). -/
def ColorChannel.RED : Nat := 0

/-- `MaskFunction.DISCARD` from the repository enums (value `0`). -/
def MaskFunction.DISCARD : Nat := 0

/-- The preprocessor defines managed by `MaskMaterial`; `none` means the
define is absent (JS `delete`d / never set). -/
structure MaskDefines where
  COLOR_CHANNEL : Option String
  MASK_FUNCTION : Option String
  INVERTED : Option String
  MASK_PRECISION_HIGH : Option String
deriving DecidableEq, Repr

/-- The uniforms declared in the `MaskMaterial` constructor. -/
structure MaskUniforms where
  maskTexture : Option Texture
  inputBuffer : Option Texture
  strength : ℚ
deriving DecidableEq, Repr

/-- State of a `MaskMaterial`: uniforms, defines and the
shader-recompilation flag `needsUpdate`. -/
structure MaskMaterial where
  uniforms : MaskUniforms
  defines : MaskDefines
  needsUpdate : Bool
deriving DecidableEq, Repr

/-- `set colorChannel(value)`: writes the `COLOR_CHANNEL` define
(`value.toFixed(0)`) and raises `needsUpdate`. -/
def MaskMaterial.set_colorChannel (m : MaskMaterial) (value : Nat) : MaskMaterial :=
  { m with defines := { m.defines with COLOR_CHANNEL := some (toString value) },
           needsUpdate := true }

/-- `set maskFunction(value)`: writes the `MASK_FUNCTION` define
(`value.toFixed(0)`) and raises `needsUpdate`. -/
def MaskMaterial.set_maskFunction (m : MaskMaterial) (value : Nat) : MaskMaterial :=
  { m with defines := { m.defines with MASK_FUNCTION := some (toString value) },
           needsUpdate := true }

/-- `get inverted()`: the `INVERTED` define is present. -/
def MaskMaterial.inverted (m : MaskMaterial) : Bool :=
  m.defines.INVERTED.isSome

/-- `set inverted(value)`: deletes or adds the `INVERTED` define and
raises `needsUpdate` unconditionally. -/
def MaskMaterial.set_inverted (m : MaskMaterial) (value : Bool) : MaskMaterial :=
  if m.inverted && !value then
    { m with defines := { m.defines with INVERTED := none }, needsUpdate := true }
  else if value then
    { m with defines := { m.defines with INVERTED := some "1" }, needsUpdate := true }
  else
    { m with needsUpdate := true }

/-- `get strength()`. -/
def MaskMaterial.strength (m : MaskMaterial) : ℚ :=
  m.uniforms.strength

/-- `set strength(value)`: writes the uniform only. -/
def MaskMaterial.set_strength (m : MaskMaterial) (value : ℚ) : MaskMaterial :=
  { m with uniforms := { m.uniforms with strength := value } }

/-- `set inputBuffer(value)`: writes the uniform only. -/
def MaskMaterial.set_inputBuffer (m : MaskMaterial) (value : Option Texture) : MaskMaterial :=
  { m with uniforms := { m.uniforms with inputBuffer := value } }

/-- `set maskTexture(value)`: writes the uniform, recomputes the
`MASK_PRECISION_HIGH` define from `value.type` and raises `needsUpdate`.
The source dereferences `value.type` unconditionally, so a `null`
argument throws a `TypeError`. -/
def MaskMaterial.set_maskTexture (m : MaskMaterial) (value : Option Texture) :
    Except String MaskMaterial :=
  match value with
  | none => Except.error "TypeError: cannot read type of null"
  | some t =>
    Except.ok
      { m with
        uniforms := { m.uniforms with maskTexture := some t },
        defines := { m.defines with
          MASK_PRECISION_HIGH := if t.type ≠ UnsignedByteType then some "1" else none },
        needsUpdate := true }

/-- The `MaskMaterial` constructor: the texture argument (default
`null`) is stored directly in the uniform map by the `super` call,
bypassing the `maskTexture` setter; then the `colorChannel` and
`maskFunction` setters run. -/
def MaskMaterial.construct (maskTexture : Option Texture) : MaskMaterial :=
  let m : MaskMaterial :=
    { uniforms := { maskTexture := maskTexture, inputBuffer := none, strength := 1 },
      defines := { COLOR_CHANNEL := none, MASK_FUNCTION := none,
                   INVERTED := none, MASK_PRECISION_HIGH := none },
      needsUpdate := false }
  let m := m.set_colorChannel ColorChannel.RED
  m.set_maskFunction MaskFunction.DISCARD

/-- Deprecated `setInputBuffer(value)`: writes the uniform directly. -/
def MaskMaterial.setInputBuffer (m : MaskMaterial) (value : Option Texture) : MaskMaterial :=
  { m with uniforms := { m.uniforms with inputBuffer := value } }

/-- Deprecated `setMaskTexture(value)`: delegates to the setter. -/
def MaskMaterial.setMaskTexture (m : MaskMaterial) (value : Option Texture) :
    Except String MaskMaterial :=
  m.set_maskTexture value

/-- Deprecated `setColorChannel(value)`: delegates to the setter. -/
def MaskMaterial.setColorChannel (m : MaskMaterial) (value : Nat) : MaskMaterial :=
  m.set_colorChannel value

/-- Deprecated `setMaskFunction(value)`: delegates to the setter. -/
def MaskMaterial.setMaskFunction (m : MaskMaterial) (value : Nat) : MaskMaterial :=
  m.set_maskFunction value

/-- Deprecated `isInverted()`: reads the getter. -/
def MaskMaterial.isInverted (m : MaskMaterial) : Bool :=
  m.inverted

/-- Deprecated `setInverted(value)`: delegates to the setter. -/
def MaskMaterial.setInverted (m : MaskMaterial) (value : Bool) : MaskMaterial :=
  m.set_inverted value

/-- Deprecated `getStrength()`: reads the getter. -/
def MaskMaterial.getStrength (m : MaskMaterial) : ℚ :=
  m.strength

/-- Deprecated `setStrength(value)`: delegates to the setter. -/
def MaskMaterial.setStrength (m : MaskMaterial) (value : ℚ) : MaskMaterial :=
  m.set_strength value

/-- A three.js `Vector4` with rational components. -/
structure Vector4 where
  x : ℚ
  y : ℚ
  z : ℚ
  w : ℚ
deriving DecidableEq, Repr

/-- `KernelSize.MEDIUM` from the repository enums (value `2`). -/
def KernelSize.MEDIUM : Nat := 2

/-- The `kernelPresets` table of `KawaseBlurMaterial`. -/
def kernelPresets : List (List ℚ) :=
  [[0, 0],
   [0, 1, 1],
   [0, 1, 1, 2],
   [0, 1, 2, 2, 3],
   [0, 1, 2, 3, 4, 4, 5],
   [0, 1, 2, 3, 4, 5, 7, 8, 9, 10]]

/-- The uniforms declared in the `KawaseBlurMaterial` constructor. -/
structure KawaseUniforms where
  inputBuffer : Option Texture
  texelSize : Vector4
  scale : ℚ
  kernel : ℚ
deriving DecidableEq, Repr

/-- State of a `KawaseBlurMaterial`. -/
structure KawaseBlurMaterial where
  uniforms : KawaseUniforms
  kernelSize : Nat
  needsUpdate : Bool
deriving DecidableEq, Repr

/-- `setTexelSize(x, y)` (deprecated): sets the `texelSize` uniform to
`(x, y, x * 0.5, y * 0.5)`. -/
def KawaseBlurMaterial.setTexelSize (m : KawaseBlurMaterial) (x y : ℚ) : KawaseBlurMaterial :=
  { m with uniforms := { m.uniforms with texelSize := ⟨x, y, x * (1/2), y * (1/2)⟩ } }

/-- `setSize(width, height)`: computes `x = 1/width`, `y = 1/height` and
sets the `texelSize` uniform to `(x, y, x * 0.5, y * 0.5)`.  The source
performs no validation of the dimensions. -/
def KawaseBlurMaterial.setSize (m : KawaseBlurMaterial) (width height : ℚ) : KawaseBlurMaterial :=
  let x : ℚ := 1 / width
  let y : ℚ := 1 / height
  { m with uniforms := { m.uniforms with texelSize := ⟨x, y, x * (1/2), y * (1/2)⟩ } }

/-- The `KawaseBlurMaterial` constructor: declares zeroed uniforms, then
runs `setTexelSize(texelSize.x, texelSize.y)` and sets
`kernelSize = KernelSize.MEDIUM`. -/
def KawaseBlurMaterial.construct (texelSize : Vector4) : KawaseBlurMaterial :=
  let m : KawaseBlurMaterial :=
    { uniforms := { inputBuffer := none, texelSize := ⟨0, 0, 0, 0⟩, scale := 1, kernel := 0 },
      kernelSize := KernelSize.MEDIUM,
      needsUpdate := false }
  m.setTexelSize texelSize.x texelSize.y

/-- `get kernelSequence()`: `kernelPresets[this.kernelSize]`. -/
def KawaseBlurMaterial.kernelSequence (m : KawaseBlurMaterial) : List ℚ :=
  kernelPresets.getD m.kernelSize []

/-- `get scale()`. -/
def KawaseBlurMaterial.scale (m : KawaseBlurMaterial) : ℚ :=
  m.uniforms.scale

/-- `set scale(value)`: writes the uniform only. -/
def KawaseBlurMaterial.set_scale (m : KawaseBlurMaterial) (value : ℚ) : KawaseBlurMaterial :=
  { m with uniforms := { m.uniforms with scale := value } }

/-- Deprecated `getScale()`: reads the uniform directly. -/
def KawaseBlurMaterial.getScale (m : KawaseBlurMaterial) : ℚ :=
  m.uniforms.scale

/-- Deprecated `setScale(value)`: writes the uniform directly. -/
def KawaseBlurMaterial.setScale (m : KawaseBlurMaterial) (value : ℚ) : KawaseBlurMaterial :=
  { m with uniforms := { m.uniforms with scale := value } }

/-- `get kernel()`. -/
def KawaseBlurMaterial.kernel (m : KawaseBlurMaterial) : ℚ :=
  m.uniforms.kernel

/-- `set kernel(value)`: writes the uniform only. -/
def KawaseBlurMaterial.set_kernel (m : KawaseBlurMaterial) (value : ℚ) : KawaseBlurMaterial :=
  { m with uniforms := { m.uniforms with kernel := value } }

/-- Deprecated `setKernel(value)`: delegates to the setter. -/
def KawaseBlurMaterial.setKernel (m : KawaseBlurMaterial) (value : ℚ) : KawaseBlurMaterial :=
  m.set_kernel value

/-- `set inputBuffer(value)`: writes the uniform only. -/
def KawaseBlurMaterial.set_inputBuffer (m : KawaseBlurMaterial) (value : Option Texture) :
    KawaseBlurMaterial :=
  { m with uniforms := { m.uniforms with inputBuffer := value } }

/-- Deprecated `setInputBuffer(value)`: delegates to the setter. -/
def KawaseBlurMaterial.setInputBuffer (m : KawaseBlurMaterial) (value : Option Texture) :
    KawaseBlurMaterial :=
  m.set_inputBuffer value

/-- Deprecated `getKernel()`: returns `null`. -/
def KawaseBlurMaterial.getKernel (_ : KawaseBlurMaterial) : Option (List ℚ) :=
  none

/-- A freshly constructed blur material, used as a concrete state. -/
def kawase0 : KawaseBlurMaterial :=
  KawaseBlurMaterial.construct ⟨0, 0, 0, 0⟩

/-- A color sample with rational channels. -/
structure Color where
  r : ℚ
  g : ℚ
  b : ℚ
deriving DecidableEq, Repr

/-- Clamp a channel to the valid range `[0, 1]`. -/
def clamp01 (q : ℚ) : ℚ :=
  max 0 (min 1 q)

/-- Clamp every channel of a color to the valid range. -/
def Color.clamp (c : Color) : Color :=
  ⟨clamp01 c.r, clamp01 c.g, clamp01 c.b⟩

/-- Modelled from the spec: an `Effect` (the `Effect` class is not in
the provided tree) is a pure color-transform function together with a
blend stage; the blend descriptor is folded into a single function of
the incoming color. -/
structure Effect where
  transform : Color → Color
  blend : Color → Color

/-- Modelled from the spec: one merged stage applies the blend stage to
the incoming color before the transform function of the effect, per the
composition `effect_i(blend_i(...))`. -/
def applyEffect (e : Effect) (c : Color) : Color :=
  e.transform (e.blend c)

/-- Modelled from the spec: the shader synthesized by `EffectPass`
(`EffectPass` is not in the provided tree) pipes the color output of
effect `i` into effect `i + 1` in list order. -/
def EffectPass.mergedShader (effects : List Effect) (input : Color) : Color :=
  effects.foldl (fun c e => applyEffect e c) input

/-- The spec formula `effect_N(blend_N(...effect_1(blend_1(input))...))`
written as a literal recursion, to be compared with the synthesized
shader. -/
def composedSpec (effects : List Effect) (input : Color) : Color :=
  match effects with
  | [] => input
  | e :: rest => composedSpec rest (e.transform (e.blend input))

/-- The scenario effect multiplying each channel by `0.5`, with a
pass-through blend. -/
def halfEffect : Effect :=
  ⟨fun c => ⟨c.r * (1/2), c.g * (1/2), c.b * (1/2)⟩, id⟩

/-- The scenario effect adding `0.1` per channel, with a pass-through
blend. -/
def addTenthEffect : Effect :=
  ⟨fun c => ⟨c.r + 1/10, c.g + 1/10, c.b + 1/10⟩, id⟩

/-- Configuration errors surfaced synchronously to the caller. -/
inductive ConfigurationError where
  | emptyEffectList
deriving DecidableEq, Repr

/-- Modelled from the spec: an `EffectPass` owns its ordered effect
list. -/
structure EffectPassSpec where
  effects : List Effect

/-- Modelled from the spec: constructing an `EffectPass` from an empty
effect list is a configuration error, not a silent no-op. -/
def EffectPass.create (effects : List Effect) : Except ConfigurationError EffectPassSpec :=
  if effects.isEmpty then Except.error ConfigurationError.emptyEffectList
  else Except.ok ⟨effects⟩

/-- Modelled from the spec: the `EffectComposer` owns the ordered pass
list (`EffectComposer` is not in the provided tree). -/
structure EffectComposer where
  passes : List EffectPassSpec

/-- Modelled from the spec: run the pass list in order, feeding each
output to the next pass; a pass whose effect list is empty surfaces a
`ConfigurationError` instead of rendering. -/
def runPasses (passes : List EffectPassSpec) (input : Color) : Except ConfigurationError Color :=
  match passes with
  | [] => Except.ok input
  | p :: rest =>
    if p.effects.isEmpty then Except.error ConfigurationError.emptyEffectList
    else runPasses rest (EffectPass.mergedShader p.effects input)

/-- Modelled from the spec: `render()` executes exactly one frame over
the composer state, which it leaves unchanged. -/
def EffectComposer.renderFrame (c : EffectComposer) (input : Color) :
    Except ConfigurationError Color :=
  runPasses c.passes input

/-- Modelled from the spec: the scheduling-relevant part of a `Pass` is
its needs-swap flag (whether the output buffer must differ from the
input buffer; a pass with the flag unset explicitly supports in-place
operation). -/
structure PassDesc where
  needsSwap : Bool
deriving DecidableEq, Repr

/-- The ping-pong buffers named as booleans: `false` is ping, `true` is
pong. One invocation records which buffer was read and which was
written. -/
structure BufferUse where
  inputBuffer : Bool
  outputBuffer : Bool
deriving DecidableEq, Repr

/-- Modelled from the spec: executing one pass reads the current input
buffer; with needs-swap set it writes the alternate buffer and the
ping-pong roles flip, otherwise it operates in place.  Returns the new
current buffer and the buffer use of this invocation. -/
def stepPass (cur : Bool) (p : PassDesc) : Bool × BufferUse :=
  let out := if p.needsSwap then !cur else cur
  (out, ⟨cur, out⟩)

/-- Modelled from the spec: one frame folds `stepPass` over the pass
list, collecting the buffer use of every invocation. -/
def runFramePasses (cur : Bool) (passes : List PassDesc) :
    Bool × List (PassDesc × BufferUse) :=
  match passes with
  | [] => (cur, [])
  | p :: rest =>
    let s := stepPass cur p
    let r := runFramePasses s.1 rest
    (r.1, (p, s.2) :: r.2)

/-- Modelled from the spec: disposal state of a `Pass` (the `Pass` class
is not in the provided tree): a disposed flag and the GPU-side resources
it still holds. -/
structure PassRes where
  disposed : Bool
  resources : List Nat
deriving DecidableEq, Repr

/-- Modelled from the spec: `Pass.dispose()` releases the held resources
and marks the pass disposed; it raises no error. -/
def PassRes.dispose (_ : PassRes) : PassRes :=
  { disposed := true, resources := [] }

/-- Modelled from the spec: the composer owns buffers and passes. -/
structure ComposerRes where
  buffers : List Nat
  passes : List PassRes
deriving DecidableEq, Repr

/-- Modelled from the spec: the composer dispose releases its owned
buffers and calls the release hook on every owned pass. -/
def ComposerRes.dispose (c : ComposerRes) : ComposerRes :=
  { buffers := [], passes := c.passes.map PassRes.dispose }

/-- C1: merging a list of compatible effects into one EffectPass yields
the composition `effect_N(blend_N(...effect_1(blend_1(input))...))` in
list order; on the scenario, half-then-add-a-tenth maps all-white
`(1,1,1)` to `(0.6,0.6,0.6)` after clamping. -/
theorem mergedShader_is_spec_composition :
    (∀ (effects : List Effect) (input : Color),
      EffectPass.mergedShader effects input = composedSpec effects input)
    ∧ Color.clamp (EffectPass.mergedShader [halfEffect, addTenthEffect] ⟨1, 1, 1⟩)
        = ⟨3/5, 3/5, 3/5⟩ := by
  constructor
  · intro effects input
    induction effects generalizing input with
    | nil => rfl
    | cons e rest ih => exact ih (applyEffect e input)
  · show Color.clamp ⟨1 * (1/2) + 1/10, 1 * (1/2) + 1/10, 1 * (1/2) + 1/10⟩
        = ⟨3/5, 3/5, 3/5⟩
    have hmin : min (1:ℚ) (1 * (1/2) + 1/10) = 1 * (1/2) + 1/10 :=
      min_eq_right (by norm_num)
    have hmax : max (0:ℚ) (1 * (1/2) + 1/10) = 1 * (1/2) + 1/10 :=
      max_eq_right (by norm_num)
    unfold Color.clamp clamp01
    rw [hmin, hmax]
    simp only [Color.mk.injEq]
    norm_num

/-- C2: per-frame scalar parameters (`strength`, `scale`, `kernel`,
input buffers) only write their uniform and leave `needsUpdate`
untouched; define-altering properties (`maskFunction`, `colorChannel`,
`inverted`, `maskTexture`) set `needsUpdate` to `true`. -/
theorem setter_mutability_contract :
    (∀ (m : MaskMaterial) (v : ℚ),
      (m.set_strength v).needsUpdate = m.needsUpdate
      ∧ (m.set_strength v).defines = m.defines
      ∧ (m.set_strength v).uniforms.maskTexture = m.uniforms.maskTexture
      ∧ (m.set_strength v).uniforms.inputBuffer = m.uniforms.inputBuffer
      ∧ (m.set_strength v).uniforms.strength = v)
    ∧ (∀ (m : MaskMaterial) (v : Option Texture),
      (m.set_inputBuffer v).needsUpdate = m.needsUpdate
      ∧ (m.set_inputBuffer v).defines = m.defines
      ∧ (m.set_inputBuffer v).uniforms.maskTexture = m.uniforms.maskTexture
      ∧ (m.set_inputBuffer v).uniforms.strength = m.uniforms.strength
      ∧ (m.set_inputBuffer v).uniforms.inputBuffer = v)
    ∧ (∀ (m : KawaseBlurMaterial) (v : ℚ),
      (m.set_scale v).needsUpdate = m.needsUpdate
      ∧ (m.set_scale v).uniforms.texelSize = m.uniforms.texelSize
      ∧ (m.set_scale v).uniforms.kernel = m.uniforms.kernel
      ∧ (m.set_scale v).uniforms.inputBuffer = m.uniforms.inputBuffer
      ∧ (m.set_scale v).kernelSize = m.kernelSize
      ∧ (m.set_scale v).uniforms.scale = v)
    ∧ (∀ (m : KawaseBlurMaterial) (v : ℚ),
      (m.set_kernel v).needsUpdate = m.needsUpdate
      ∧ (m.set_kernel v).uniforms.texelSize = m.uniforms.texelSize
      ∧ (m.set_kernel v).uniforms.scale = m.uniforms.scale
      ∧ (m.set_kernel v).uniforms.inputBuffer = m.uniforms.inputBuffer
      ∧ (m.set_kernel v).kernelSize = m.kernelSize
      ∧ (m.set_kernel v).uniforms.kernel = v)
    ∧ (∀ (m : KawaseBlurMaterial) (v : Option Texture),
      (m.set_inputBuffer v).needsUpdate = m.needsUpdate
      ∧ (m.set_inputBuffer v).uniforms.texelSize = m.uniforms.texelSize
      ∧ (m.set_inputBuffer v).uniforms.scale = m.uniforms.scale
      ∧ (m.set_inputBuffer v).uniforms.kernel = m.uniforms.kernel
      ∧ (m.set_inputBuffer v).kernelSize = m.kernelSize
      ∧ (m.set_inputBuffer v).uniforms.inputBuffer = v)
    ∧ (∀ (m : MaskMaterial) (v : Nat), (m.set_maskFunction v).needsUpdate = true)
    ∧ (∀ (m : MaskMaterial) (v : Nat), (m.set_colorChannel v).needsUpdate = true)
    ∧ (∀ (m : MaskMaterial) (v : Bool), (m.set_inverted v).needsUpdate = true)
    ∧ (∀ (m : MaskMaterial) (t : Texture), ∃ m2,
        m.set_maskTexture (some t) = Except.ok m2 ∧ m2.needsUpdate = true) := by
  refine ⟨?_, ?_, ?_, ?_, ?_, ?_, ?_, ?_, ?_⟩
  · exact fun m v => ⟨rfl, rfl, rfl, rfl, rfl⟩
  · exact fun m v => ⟨rfl, rfl, rfl, rfl, rfl⟩
  · exact fun m v => ⟨rfl, rfl, rfl, rfl, rfl, rfl⟩
  · exact fun m v => ⟨rfl, rfl, rfl, rfl, rfl, rfl⟩
  · exact fun m v => ⟨rfl, rfl, rfl, rfl, rfl, rfl⟩
  · exact fun m v => rfl
  · exact fun m v => rfl
  · intro m v
    unfold MaskMaterial.set_inverted
    split
    · rfl
    · split
      · rfl
      · rfl
  · exact fun m t => ⟨_, rfl, rfl⟩

/-- C3 counterexample: `KawaseBlurMaterial.setSize` does not reject a
non-positive width; at width `-2` it computes the texel sizes from the
dimensions and surfaces no error. -/
theorem setSize_accepts_nonpositive_cex :
    (kawase0.setSize (-2) 1).uniforms.texelSize = ⟨-(1/2), 1, -(1/4), 1/2⟩ := by
  show (⟨1/(-2), 1/1, (1/(-2)) * (1/2), (1/1) * (1/2)⟩ : Vector4) = _
  simp only [Vector4.mk.injEq]
  norm_num

/-- C3 amended: `setSize` performs no validation at all: for every
width and height (non-positive included) it is a total state update
writing `texelSize = (1/w, 1/h, (1/w)*0.5, (1/h)*0.5)`. -/
theorem setSize_never_validates :
    ∀ (m : KawaseBlurMaterial) (w h : ℚ),
      m.setSize w h =
        { m with uniforms := { m.uniforms with
            texelSize := ⟨1/w, 1/h, (1/w) * (1/2), (1/h) * (1/2)⟩ } } :=
  fun _ _ _ => rfl

/-- C4: an empty effect list is a `ConfigurationError`, both at
`EffectPass` construction and when a frame reaches such a pass; the
composer state is untouched by the error and any composer whose passes
all carry effects still renders successfully. -/
theorem empty_effect_list_errors :
    EffectPass.create [] = Except.error ConfigurationError.emptyEffectList
    ∧ (∀ input : Color,
      EffectComposer.renderFrame ⟨[⟨[]⟩]⟩ input
        = Except.error ConfigurationError.emptyEffectList)
    ∧ (∀ (ps : List EffectPassSpec) (input : Color),
      (∀ p ∈ ps, p.effects ≠ []) →
      ∃ out, EffectComposer.renderFrame ⟨ps⟩ input = Except.ok out) := by
  refine ⟨rfl, fun input => rfl, ?_⟩
  intro ps
  induction ps with
  | nil => exact fun input h => ⟨input, rfl⟩
  | cons p rest ih =>
    intro input h
    have hp : p.effects ≠ [] := h p (List.mem_cons_self p rest)
    have hrest : ∀ q ∈ rest, q.effects ≠ [] := fun q hq => h q (List.mem_cons_of_mem p hq)
    obtain ⟨out, hout⟩ := ih (EffectPass.mergedShader p.effects input) hrest
    have hne : p.effects.isEmpty = false := by
      cases hE : p.effects with
      | nil => exact absurd hE hp
      | cons a l => rfl
    exact ⟨out, by simpa [EffectComposer.renderFrame, runPasses, hne] using hout⟩

/-- C4 witness: a composer holding one single-effect pass satisfies the
validity hypothesis and renders successfully. -/
theorem empty_effect_list_errors_witness :
    (∀ p ∈ ([⟨[halfEffect]⟩] : List EffectPassSpec), p.effects ≠ [])
    ∧ ∃ out, EffectComposer.renderFrame ⟨[⟨[halfEffect]⟩]⟩ ⟨1, 1, 1⟩ = Except.ok out := by
  have h : ∀ p ∈ ([⟨[halfEffect]⟩] : List EffectPassSpec), p.effects ≠ [] := by
    intro p hp
    simp only [List.mem_singleton] at hp
    subst hp
    simp
  exact ⟨h, empty_effect_list_errors.2.2 [⟨[halfEffect]⟩] ⟨1, 1, 1⟩ h⟩

/-- C5: during a frame the current-input designation is a single buffer
of the ping-pong pair, and every invocation of a pass that requires a
swap (no in-place support) reads and writes distinct buffers, so the
designated buffer is never one used as both input and output of one
invocation. -/
theorem swap_pass_no_alias :
    ∀ (cur : Bool) (passes : List PassDesc) (p : PassDesc) (u : BufferUse),
      (p, u) ∈ (runFramePasses cur passes).2 →
      p.needsSwap = true →
      u.inputBuffer ≠ u.outputBuffer := by
  intro cur passes
  induction passes generalizing cur with
  | nil =>
    intro p u hmem
    simp [runFramePasses] at hmem
  | cons q rest ih =>
    intro p u hmem hswap
    simp only [runFramePasses, List.mem_cons] at hmem
    rcases hmem with h | h
    · rw [Prod.mk.injEq] at h
      obtain ⟨hp, hu⟩ := h
      subst hp
      subst hu
      simp only [stepPass, hswap]
      cases cur <;> simp
    · exact ih _ p u h hswap

/-- C5 witness: one swap-requiring pass starting from the pong buffer
reads pong and writes ping. -/
theorem swap_pass_no_alias_witness :
    ((⟨true⟩, ⟨true, false⟩) ∈ (runFramePasses true [⟨true⟩]).2)
    ∧ (⟨true⟩ : PassDesc).needsSwap = true
    ∧ ((⟨true, false⟩ : BufferUse).inputBuffer
        ≠ (⟨true, false⟩ : BufferUse).outputBuffer) :=
  ⟨by decide, by decide,
    swap_pass_no_alias true [⟨true⟩] ⟨true⟩ ⟨true, false⟩ (by decide) (by decide)⟩

/-- C6: `setSize(w, h)` with positive dimensions writes the `texelSize`
uniform to exactly `(1/w, 1/h, 0.5/w, 0.5/h)`, coincides with
`setTexelSize(1/w, 1/h)`, and changes nothing else. -/
theorem setSize_sets_texelSize (m : KawaseBlurMaterial) (w h : ℚ)
    (hw : 0 < w) (hh : 0 < h) :
    (m.setSize w h).uniforms.texelSize = ⟨1/w, 1/h, (1/2)/w, (1/2)/h⟩
    ∧ m.setSize w h = m.setTexelSize (1/w) (1/h)
    ∧ (m.setSize w h).uniforms.inputBuffer = m.uniforms.inputBuffer
    ∧ (m.setSize w h).uniforms.scale = m.uniforms.scale
    ∧ (m.setSize w h).uniforms.kernel = m.uniforms.kernel
    ∧ (m.setSize w h).kernelSize = m.kernelSize
    ∧ (m.setSize w h).needsUpdate = m.needsUpdate := by
  refine ⟨?_, rfl, rfl, rfl, rfl, rfl, rfl⟩
  show (⟨1/w, 1/h, (1/w) * (1/2), (1/h) * (1/2)⟩ : Vector4) = _
  have hz : (1/w) * ((1:ℚ)/2) = (1/2)/w := by ring
  have hw4 : (1/h) * ((1:ℚ)/2) = (1/2)/h := by ring
  rw [hz, hw4]

/-- C6 witness: `setSize(2, 4)` on a fresh material. -/
theorem setSize_sets_texelSize_witness :
    (0:ℚ) < 2 ∧ (0:ℚ) < 4 ∧
    ((kawase0.setSize 2 4).uniforms.texelSize = ⟨1/2, 1/4, (1/2)/2, (1/2)/4⟩
    ∧ kawase0.setSize 2 4 = kawase0.setTexelSize (1/2) (1/4)
    ∧ (kawase0.setSize 2 4).uniforms.inputBuffer = kawase0.uniforms.inputBuffer
    ∧ (kawase0.setSize 2 4).uniforms.scale = kawase0.uniforms.scale
    ∧ (kawase0.setSize 2 4).uniforms.kernel = kawase0.uniforms.kernel
    ∧ (kawase0.setSize 2 4).kernelSize = kawase0.kernelSize
    ∧ (kawase0.setSize 2 4).needsUpdate = kawase0.needsUpdate) :=
  ⟨by norm_num, by norm_num,
    setSize_sets_texelSize kawase0 2 4 (by norm_num) (by norm_num)⟩

/-- C7: disposal is idempotent for passes and for the composer: a second
`dispose()` raises no error and leaves the state exactly as the first
left it. -/
theorem dispose_idempotent :
    (∀ p : PassRes, p.dispose.dispose = p.dispose)
    ∧ (∀ c : ComposerRes, c.dispose.dispose = c.dispose) := by
  constructor
  · exact fun p => rfl
  · intro c
    have h : PassRes.dispose ∘ PassRes.dispose = PassRes.dispose :=
      funext fun p => rfl
    simp only [ComposerRes.dispose, List.map_map, h]

/-- C8: assigning a non-null texture via the `maskTexture` setter stores
it in the uniform, adds `MASK_PRECISION_HIGH` exactly when the texture
type differs from `UnsignedByteType`, and raises `needsUpdate`; the
constructor stores its texture argument directly and never adds
`MASK_PRECISION_HIGH`. -/
theorem maskTexture_precision_contract :
    (∀ (m : MaskMaterial) (t : Texture), ∃ m2,
      m.set_maskTexture (some t) = Except.ok m2
      ∧ m2.uniforms.maskTexture = some t
      ∧ (m2.defines.MASK_PRECISION_HIGH = some "1" ↔ t.type ≠ UnsignedByteType)
      ∧ m2.needsUpdate = true)
    ∧ (∀ mt : Option Texture,
      (MaskMaterial.construct mt).defines.MASK_PRECISION_HIGH = none
      ∧ (MaskMaterial.construct mt).uniforms.maskTexture = mt) := by
  constructor
  · intro m t
    refine ⟨_, rfl, rfl, ?_, rfl⟩
    by_cases ht : t.type = UnsignedByteType
    · simp [ht]
    · simp [ht]
  · exact fun mt => ⟨rfl, rfl⟩

/-- C9: the `maskTexture` setter dereferences its argument
unconditionally: assigning `null` (the constructor's own default) throws
a `TypeError`, while under the non-null precondition the error branch is
unreachable and the setter always succeeds. -/
theorem maskTexture_null_throws :
    (∀ m : MaskMaterial, ∃ e, m.set_maskTexture none = Except.error e)
    ∧ (∀ (m : MaskMaterial) (t : Texture), ∃ m2,
        m.set_maskTexture (some t) = Except.ok m2)
    ∧ (MaskMaterial.construct none).uniforms.maskTexture = none :=
  ⟨fun _ => ⟨_, rfl⟩, fun _ _ => ⟨_, rfl⟩, rfl⟩

/-- C10 counterexample: the deprecated `setTexelSize` does not coincide
with the non-deprecated `setSize` applied to the same value: at
`(2, 2)` they produce different `texelSize` uniforms. -/
theorem setTexelSize_differs_from_setSize_cex :
    KawaseBlurMaterial.setTexelSize kawase0 2 2 ≠ KawaseBlurMaterial.setSize kawase0 2 2 := by
  intro hcontra
  have h2 : (KawaseBlurMaterial.setTexelSize kawase0 2 2).uniforms.texelSize.x
      = (KawaseBlurMaterial.setSize kawase0 2 2).uniforms.texelSize.x := by
    rw [hcontra]
  have h3 : (2:ℚ) = 1/2 := h2
  norm_num at h3

/-- C10 amended: every deprecated accessor except `setTexelSize` has
exactly the effect of its non-deprecated counterpart applied to the same
value; `setTexelSize x y` instead coincides with `setSize` applied to
the reciprocal dimensions `1/x`, `1/y`. -/
theorem deprecated_accessor_equivalence :
    (∀ (m : MaskMaterial) (v : Option Texture),
      m.setInputBuffer v = m.set_inputBuffer v)
    ∧ (∀ (m : MaskMaterial) (v : Option Texture),
      m.setMaskTexture v = m.set_maskTexture v)
    ∧ (∀ (m : MaskMaterial) (v : Nat), m.setColorChannel v = m.set_colorChannel v)
    ∧ (∀ (m : MaskMaterial) (v : Nat), m.setMaskFunction v = m.set_maskFunction v)
    ∧ (∀ m : MaskMaterial, m.isInverted = m.inverted)
    ∧ (∀ (m : MaskMaterial) (v : Bool), m.setInverted v = m.set_inverted v)
    ∧ (∀ m : MaskMaterial, m.getStrength = m.strength)
    ∧ (∀ (m : MaskMaterial) (v : ℚ), m.setStrength v = m.set_strength v)
    ∧ (∀ (m : KawaseBlurMaterial) (v : Option Texture),
      m.setInputBuffer v = m.set_inputBuffer v)
    ∧ (∀ (m : KawaseBlurMaterial) (v : ℚ), m.setScale v = m.set_scale v)
    ∧ (∀ m : KawaseBlurMaterial, m.getScale = m.scale)
    ∧ (∀ (m : KawaseBlurMaterial) (v : ℚ), m.setKernel v = m.set_kernel v)
    ∧ (∀ (m : KawaseBlurMaterial) (x y : ℚ),
      m.setTexelSize x y = m.setSize (1/x) (1/y)) := by
  refine ⟨fun _ _ => rfl, fun _ _ => rfl, fun _ _ => rfl, fun _ _ => rfl,
    fun _ => rfl, fun _ _ => rfl, fun _ => rfl, fun _ _ => rfl,
    fun _ _ => rfl, fun _ _ => rfl, fun _ => rfl, fun _ _ => rfl, ?_⟩
  intro m x y
  simp only [KawaseBlurMaterial.setTexelSize, KawaseBlurMaterial.setSize, one_div_one_div]
